import Mathlib

/-!
Verification of the asynchronous response-assembly and delivery protocol of the
replit-vonage-mvp repository (Express server in `src/server/routes/api.js`, TTS
services in `src/server/services/{vonageService,openaiService}.js`, Vuex client
store).  JavaScript strings are modelled by Lean `String` through its
`data : List Char` representation (`substring`, `startsWith`, `length` become
list operations); JS objects used as string-keyed dictionaries are modelled as
insertion-ordered association lists (`Object.keys` enumerates keys in insertion
order for non-index keys); fallible TTS provider calls are modelled as oracles
`String → Option Audio` where `none` means the provider call threw.
-/

set_option maxRecDepth 8000

namespace VonageMvp

/-- Audio payloads are opaque byte blobs; we model them as strings. -/
abbrev Audio := String

/-! ## JavaScript string primitives on the `List Char` representation -/

/-- JS `s.substring(n)` (drop the first `n` units). -/
def jsSubstrFrom (s : String) (n : Nat) : String := ⟨s.data.drop n⟩

/-- JS `s.substring(0, n)` (keep the first `n` units). -/
def jsTakeTo (s : String) (n : Nat) : String := ⟨s.data.take n⟩

/-- JS `s.startsWith(pre)`. -/
def jsStartsWith (s pre : String) : Bool := pre.data.isPrefixOf s.data

/-- JS `s.trim().length === 0`: every character of `s` is whitespace. -/
def jsTrimEmpty (s : String) : Bool := s.data.all Char.isWhitespace

/-! ## `vonageService.js` -/

/-- One row of the `voiceMap` object literal in `getVoiceName`. -/
structure VoicePair where
  female : String
  male : String
deriving DecidableEq, Repr

/-- The `voiceMap` object literal of `vonageService.getVoiceName`
(`voiceMap[language]`, `undefined` for a language not among the keys). -/
def voiceMap (language : String) : Option VoicePair :=
  if language = "en-US" then some ⟨"Kimberly", "Matthew"⟩
  else if language = "en-GB" then some ⟨"Amy", "Brian"⟩
  else if language = "es-ES" then some ⟨"Penelope", "Miguel"⟩
  else if language = "fr-FR" then some ⟨"Celine", "Mathieu"⟩
  else if language = "de-DE" then some ⟨"Marlene", "Hans"⟩
  else if language = "it-IT" then some ⟨"Carla", "Giorgio"⟩
  else if language = "ja-JP" then some ⟨"Mizuki", "Takumi"⟩
  else if language = "zh-CN" then some ⟨"Zhiyu", "Zhiyu"⟩
  else none

/-- Property access `langVoices[voiceType]` on a `voiceMap` row:
only the own-properties `female` and `male` exist. -/
def voicePairAccess (p : VoicePair) (voiceType : String) : Option String :=
  if voiceType = "female" then some p.female
  else if voiceType = "male" then some p.male
  else none

/-- `vonageService.getVoiceName(language, voiceType)`:
`const langVoices = voiceMap[language] || voiceMap['en-US'];`
`return langVoices[voiceType] || (voiceType === 'male' ? 'Matthew' : 'Kimberly');`
(all table entries are non-empty strings, so `||` is `Option.getD`). -/
def getVoiceName (language voiceType : String) : String :=
  let langVoices := (voiceMap language).getD ⟨"Kimberly", "Matthew"⟩
  (voicePairAccess langVoices voiceType).getD
    (if voiceType = "male" then "Matthew" else "Kimberly")

/-- The `text` request parameter issued by `vonageService.textToSpeech`:
`if (text.length > 1500) text = text.substring(0, 1500);` before the
HTTP request is built. -/
def vonageTtsRequestText (text : String) : String :=
  if 1500 < text.length then jsTakeTo text 1500 else text

/-- The `input` request parameter issued by `openaiService.textToSpeech`:
the text is passed through unchanged (`input: text`). -/
def openaiTtsRequestText (text : String) : String := text

/-! ## `api.js` POST /chat pipeline

The submission is modelled by its resolved inputs: `partialText` and
`streamId` from `getStreamingAIResponse`, `finalText` from
`completeTextPromise` (the claims below concern submissions whose text
generation succeeded), the two TTS providers as oracles from text to
`Option Audio` (`none` models a thrown error; voice parameters are
threaded through unchanged by the handler and are omitted), and the two
`Date.now()` readings used to build audio filenames. -/

structure ChatEnv where
  partialText : String
  finalText : String
  streamId : String
  vonageTts : String → Option Audio
  openaiTts : String → Option Audio
  ts1 : Nat
  ts2 : Nat

/-- `try { vonage } catch { openai }`: the Vonage provider is tried first, any
failure falls over to the OpenAI provider. -/
def tryBothTts (vonage openai : String → Option Audio) (text : String) :
    Option Audio :=
  match vonage text with
  | some a => some a
  | none => openai text

/-- Initial-chunk synthesis (api.js lines 128-163): attempted only when
`partialText.length > 10`; both providers failing is caught and swallowed
(`initialAudioPath` stays null). -/
def initialAudioResult (env : ChatEnv) : Option Audio :=
  if 10 < env.partialText.length then
    tryBothTts env.vonageTts env.openaiTts env.partialText
  else none

/-- The filename `audio_initial_${timestamp}.mp3` for the initial chunk. -/
def initialFileNameOf (env : ChatEnv) : String :=
  "audio_initial_" ++ toString env.ts1 ++ ".mp3"

/-- The filename `audio_${timestamp}.mp3` for the completion-stage audio. -/
def finalFileNameOf (env : ChatEnv) : String :=
  "audio_" ++ toString env.ts2 ++ ".mp3"

/-- `initialAudioPath`: `/api/audio/${initialAudioFileName}` when initial
synthesis produced audio, otherwise null. -/
def initialAudioPath (env : ChatEnv) : Option String :=
  (initialAudioResult env).map (fun _ => "/api/audio/" ++ initialFileNameOf env)

/-- The JSON body sent by `res.json` before the background continuation runs
(api.js lines 166-172).  The `isPartial` field is called `partialFlag`. -/
structure ImmediateResponse where
  success : Bool
  text : String
  partialFlag : Bool
  streamId : String
  audioUrl : Option String
deriving DecidableEq, Repr

/-- The immediate POST /chat response. -/
def chatImmediate (env : ChatEnv) : ImmediateResponse :=
  { success := true
    text := env.partialText
    partialFlag := true
    streamId := env.streamId
    audioUrl := initialAudioPath env }

/-- An entry of `req.app.locals.responseCache` (the Correlation Cache). -/
structure CompletionRecord where
  text : String
  audioUrl : String
  initialAudioUrl : Option String
  multipartAudio : Bool
  timestamp : Nat
deriving DecidableEq, Repr

/-- The JS dedup guard (api.js lines 181-183):
`initialAudioPath && partialText && finalText.length < partialText.length * 1.5`.
`n * 1.5` is exact in JS floats for any realistic length, so the comparison
is `2 * finalText.length < 3 * partialText.length` over naturals. -/
def dedupApplies (env : ChatEnv) (ip : Option String) : Prop :=
  ip.isSome = true ∧ env.partialText ≠ "" ∧
    2 * env.finalText.length < 3 * env.partialText.length

instance (env : ChatEnv) (ip : Option String) : Decidable (dedupApplies env ip) := by
  unfold dedupApplies; infer_instance

/-- `audioText` as computed in api.js lines 204-212: strip the already-spoken
prefix only when initial audio exists, `partialText` is truthy, its length is
positive and `finalText.startsWith(partialText)`; else the full `finalText`. -/
def audioTextOf (env : ChatEnv) (ip : Option String) : String :=
  if ip.isSome = true ∧ env.partialText ≠ "" ∧ 0 < env.partialText.length ∧
      jsStartsWith env.finalText env.partialText = true then
    jsSubstrFrom env.finalText env.partialText.length
  else env.finalText

/-- The background continuation (api.js lines 176-293) after `finalText`
resolved.  Returns the CompletionRecord it publishes into the Correlation
Cache (`none` when the continuation ends in the `.catch` without publishing)
together with the list of texts handed to completion-stage synthesis (each
entry is one `textToSpeech` attempt with provider failover). -/
def backgroundStage (env : ChatEnv) (ip : Option String) :
    Option CompletionRecord × List String :=
  if dedupApplies env ip then
    (some { text := env.finalText, audioUrl := ip.getD "",
            initialAudioUrl := none, multipartAudio := false,
            timestamp := env.ts2 }, [])
  else
    let audioText := audioTextOf env ip
    if jsTrimEmpty audioText = true ∧ ip.isSome = true then
      (some { text := env.finalText, audioUrl := ip.getD "",
              initialAudioUrl := none, multipartAudio := false,
              timestamp := env.ts2 }, [])
    else
      match tryBothTts env.vonageTts env.openaiTts audioText with
      | none => (none, [audioText])
      | some _ =>
        let audioPath := "/api/audio/" ++ finalFileNameOf env
        match ip with
        | some p =>
          (some { text := env.finalText, audioUrl := audioPath,
                  initialAudioUrl := some p, multipartAudio := true,
                  timestamp := env.ts2 }, [audioText])
        | none =>
          (some { text := env.finalText, audioUrl := audioPath,
                  initialAudioUrl := none, multipartAudio := false,
                  timestamp := env.ts2 }, [audioText])

/-- The whole background continuation of a submission. -/
def chatBackground (env : ChatEnv) : Option CompletionRecord × List String :=
  backgroundStage env (initialAudioPath env)

/-! ## Server caches and GET endpoints -/

/-- `req.app.locals.responseCache`: insertion-ordered map streamId ↦ record. -/
abbrev RespCache := List (String × CompletionRecord)

/-- `req.app.locals.audioCache`: insertion-ordered map filename ↦ bytes. -/
abbrev AudioCache := List (String × Audio)

/-- Key lookup in an insertion-ordered JS object. -/
def assocFind (l : List (String × α)) (k : String) : Option α :=
  (l.find? (fun kv => kv.1 = k)).map (fun kv => kv.2)

/-- `delete obj[k]` on a JS object (keys are unique; removing every pair with
the key preserves the order of the rest). -/
def assocDelete (l : List (String × α)) (k : String) : List (String × α) :=
  l.filter (fun kv => kv.1 ≠ k)

/-- `obj[k] = v` on a JS object: overwrite in place, else append. -/
def assocSet (l : List (String × α)) (k : String) (v : α) :
    List (String × α) :=
  if l.any (fun kv => kv.1 = k) then
    l.map (fun kv => if kv.1 = k then (k, v) else kv)
  else l ++ [(k, v)]

/-- The JSON body of GET /response/:streamId (always HTTP 200). -/
structure PollReply where
  status : Nat
  success : Bool
  complete : Bool
  text : Option String
  audioUrl : Option String
  initialAudioUrl : Option String
  multipartAudio : Bool
deriving DecidableEq, Repr

/-- The reply sent when no record exists: `{ success: true, complete: false }`. -/
def pendingReply : PollReply :=
  { status := 200, success := true, complete := false, text := none,
    audioUrl := none, initialAudioUrl := none, multipartAudio := false }

/-- GET /response/:streamId (api.js lines 306-340): absent record answers
`pendingReply`; a present record is answered with `complete: true` and is
deleted from the cache before replying. -/
def getResponseEndpoint (cache : RespCache) (sid : String) :
    PollReply × RespCache :=
  match assocFind cache sid with
  | none => (pendingReply, cache)
  | some rec =>
    let cache' := assocDelete cache sid
    if rec.multipartAudio then
      ({ status := 200, success := true, complete := true,
         text := some rec.text, audioUrl := some rec.audioUrl,
         initialAudioUrl := rec.initialAudioUrl, multipartAudio := true },
       cache')
    else
      ({ status := 200, success := true, complete := true,
         text := some rec.text, audioUrl := some rec.audioUrl,
         initialAudioUrl := none, multipartAudio := false }, cache')

/-- A sequence of GET /response polls, returning each polled id with the
`complete` flag it observed. -/
def runPolls (cache : RespCache) : List String → List (String × Bool)
  | [] => []
  | sid :: rest =>
    let step := getResponseEndpoint cache sid
    (sid, step.1.complete) :: runPolls step.2 rest

/-- The audio-cache half of `cleanupOldCacheEntries` (api.js lines 356-363):
when more than 100 files are cached, delete all but the 50 most recent
(`Object.keys` order is insertion order). -/
def cleanupAudio (ac : AudioCache) : AudioCache :=
  if 100 < ac.length then ac.drop (ac.length - 50) else ac

/-- The response-cache half of `cleanupOldCacheEntries` (api.js lines 347-353):
drop records older than ten minutes. -/
def cleanupResponses (now : Nat) (rc : RespCache) : RespCache :=
  rc.filter (fun kv => ¬ 600000 < now - kv.2.timestamp)

/-- GET /audio/:filename result: the bytes, or the 404 JSON error body. -/
inductive AudioReply where
  | ok (bytes : Audio)
  | notFound404
deriving DecidableEq, Repr

/-- GET /audio/:filename (api.js lines 404-421). -/
def getAudioEndpoint (ac : AudioCache) (filename : String) : AudioReply :=
  match assocFind ac filename with
  | some b => AudioReply.ok b
  | none => AudioReply.notFound404

/-- The two server-owned caches. -/
structure ServerState where
  responseCache : RespCache
  audioCache : AudioCache
deriving Repr

/-- The synchronous part of the POST /chat handler, up to and including
`res.json(...)`: it may insert the initial audio blob into the audio cache
but never touches the response cache; the continuation is registered, not
run. -/
def chatSubmit (env : ChatEnv) (st : ServerState) :
    ImmediateResponse × ServerState :=
  match initialAudioResult env with
  | some a =>
    (chatImmediate env,
     { st with audioCache := assocSet st.audioCache (initialFileNameOf env) a })
  | none => (chatImmediate env, st)

/-- Running the background continuation against the server state: store the
completion-stage audio blob if one was produced, publish the record if one
was built, then run `cleanupOldCacheEntries`. -/
def chatBackgroundRun (env : ChatEnv) (now : Nat) (st : ServerState) :
    ServerState :=
  match chatBackground env with
  | (none, _) => st
  | (some rec, calls) =>
    let ac := if calls = [] then st.audioCache
              else assocSet st.audioCache (finalFileNameOf env)
                     ((tryBothTts env.vonageTts env.openaiTts
                        (audioTextOf env (initialAudioPath env))).getD "")
    { responseCache :=
        cleanupResponses now (assocSet st.responseCache env.streamId rec)
      audioCache := cleanupAudio ac }

/-- Number of polls in a trace that observed `complete:true` for a given id. -/
def completedPolls (sid : String) (trace : List (String × Bool)) : Nat :=
  (trace.filter (fun r => r.1 = sid ∧ r.2 = true)).length

/-! ## Client store (Vuex, `checkCompletedResponse`) -/

/-- A rendered conversation message. -/
structure Message where
  role : String
  content : String
  audio : Option String
  partialFlag : Bool
deriving DecidableEq, Repr

/-- A `pendingResponses[streamId]` entry: `{ messageIndex, retries }`. -/
structure PendingEntry where
  messageIndex : Nat
  retries : Nat
deriving DecidableEq, Repr

/-- The slice of the Vuex store state touched by `checkCompletedResponse`. -/
structure ClientState where
  messages : List Message
  pending : List (String × PendingEntry)
  error : Option String
  processing : Bool
deriving DecidableEq, Repr

/-- The `UPDATE_MESSAGE` mutation: merge updates into `messages[index]` when
the index is in range. -/
def updateMessageAt (ms : List Message) (i : Nat) (content : String)
    (audio : Option String) : List Message :=
  match ms.get? i with
  | some m => ms.set i { m with content := content, audio := audio,
                                partialFlag := false }
  | none => ms

/-- The `INCREMENT_RETRY_COUNT` mutation. -/
def incrRetry (p : List (String × PendingEntry)) (sid : String) :
    List (String × PendingEntry) :=
  p.map (fun kv => if kv.1 = sid then
           (kv.1, { kv.2 with retries := kv.2.retries + 1 }) else kv)

/-- The `checkCompletedResponse` action applied to one poll reply.  On
`complete` the message is finalised and the id removed; otherwise the retry
counter is incremented (the action holds a live reference to the entry, so
its `retries > 30` test sees the incremented value) and the id is dropped
once the counter exceeds 30.  `SET_ERROR` is never committed. -/
def checkCompletedResponse (st : ClientState) (sid : String)
    (reply : PollReply) : ClientState :=
  match assocFind st.pending sid with
  | none => st
  | some e =>
    if reply.complete then
      let pending' := assocDelete st.pending sid
      { st with
        messages := updateMessageAt st.messages e.messageIndex
          (reply.text.getD "") reply.audioUrl
        pending := pending'
        processing := if pending' = [] then false else st.processing }
    else
      let pending' := incrRetry st.pending sid
      if 30 < e.retries + 1 then
        let pending'' := assocDelete pending' sid
        { st with pending := pending''
                  processing := if pending'' = [] then false else st.processing }
      else { st with pending := pending' }

/-! ## Concrete inputs used by witnesses and counterexamples -/

/-- A 1501-character text, one character over Vonage's 1500 limit. -/
def longTtsText : String := ⟨List.replicate 1501 'a'⟩

/-- An audio cache holding 101 distinct filenames in insertion order. -/
def sampleAudioCache : AudioCache :=
  (List.range 101).map (fun i => ("f" ++ toString i, "b"))

/-- A TTS provider oracle whose every call throws. -/
def alwaysFailTts : String → Option Audio := fun _ => none

/-- A TTS provider oracle whose every call returns audio. -/
def alwaysOkTts : String → Option Audio := fun _ => some "AUDIO"

/-- A submission whose final text is shorter than 1.5 × the partial text. -/
def dedupEnv : ChatEnv :=
  ⟨"Hello world!", "Hello world! Ok.", "sid-1", alwaysOkTts, alwaysFailTts, 1, 2⟩

/-- A submission with initial audio whose final text extends the partial
text far past the dedup threshold. -/
def stripEnv : ChatEnv :=
  ⟨"Hello world!", "Hello world! Plus more text here, okay friend.", "sid-2",
   alwaysOkTts, alwaysFailTts, 3, 4⟩

/-- A submission with a short partial text (no initial synthesis attempted)
whose final text starts with the partial text. -/
def noInitialEnv : ChatEnv :=
  ⟨"Hi!", "Hi! How are you?", "sid-3", alwaysFailTts, alwaysFailTts, 5, 6⟩

/-- A submission on which both TTS providers fail at every stage. -/
def ttsFailEnv : ChatEnv :=
  ⟨"Hello there, how", "Hello there, how are you doing today?", "sid-4",
   alwaysFailTts, alwaysFailTts, 7, 8⟩

/-- An arbitrary submission on which every TTS provider call throws. -/
def failingTtsEnv (pt ft sid : String) (ts1 ts2 : Nat) : ChatEnv :=
  ⟨pt, ft, sid, fun _ => none, fun _ => none, ts1, ts2⟩

/-- A plain submission used for the ordering witness. -/
def submitEnv : ChatEnv :=
  ⟨"Hi", "Hi there, friend.", "sid-5", alwaysFailTts, alwaysFailTts, 9, 10⟩

/-- A client state with one pending response already at 30 retries. -/
def clientStateW : ClientState :=
  ⟨[⟨"assistant", "partial text", none, true⟩], [("sid-1", ⟨0, 30⟩)],
   none, true⟩

/-! ## Helper lemmas -/

theorem strLength_mk (d : List Char) : (String.mk d).length = d.length := rfl

theorem length_pos_of_ne_empty {s : String} (h : s ≠ "") : 0 < s.length := by
  cases s with
  | mk d =>
    cases d with
    | nil => exact absurd rfl h
    | cons c cs => rw [strLength_mk]; exact Nat.succ_pos _

theorem ne_empty_of_length_pos {s : String} (h : 0 < s.length) : s ≠ "" := by
  intro he
  subst he
  exact absurd h (by decide)

theorem assocFind_filter_none {α : Type} {l : List (String × α)} {k : String}
    (q : String × α → Bool) (h : assocFind l k = none) :
    assocFind (l.filter q) k = none := by
  unfold assocFind at h ⊢
  rw [Option.map_eq_none'] at h ⊢
  rw [List.find?_eq_none] at h ⊢
  intro x hx
  exact h x (List.mem_filter.mp hx).1

theorem assocFind_delete_self {α : Type} (l : List (String × α)) (k : String) :
    assocFind (assocDelete l k) k = none := by
  unfold assocFind assocDelete
  rw [Option.map_eq_none', List.find?_eq_none]
  intro x hx
  have hq := (List.mem_filter.mp hx).2
  simp only [decide_eq_true_eq] at hq ⊢
  exact hq

theorem assocFind_delete_none {α : Type} {l : List (String × α)} {k : String}
    (s : String) (h : assocFind l k = none) :
    assocFind (assocDelete l s) k = none :=
  assocFind_filter_none _ h

theorem getResponse_pending {c : RespCache} {sid : String}
    (h : assocFind c sid = none) :
    getResponseEndpoint c sid = (pendingReply, c) := by
  unfold getResponseEndpoint
  rw [h]

theorem getResponse_preserves_none {c : RespCache} {k s : String}
    (h : assocFind c k = none) :
    assocFind (getResponseEndpoint c s).2 k = none := by
  unfold getResponseEndpoint
  cases hf : assocFind c s with
  | none => simpa using h
  | some rec =>
    by_cases hm : rec.multipartAudio <;>
      simp [hm, assocFind_delete_none s h]

theorem getResponse_complete_then_deleted {c : RespCache} {sid : String}
    (h : (getResponseEndpoint c sid).1.complete = true) :
    assocFind (getResponseEndpoint c sid).2 sid = none := by
  unfold getResponseEndpoint at h ⊢
  cases hf : assocFind c sid with
  | none =>
    rw [hf] at h
    simp [pendingReply] at h
  | some rec =>
    by_cases hm : rec.multipartAudio <;>
      simp [hf, hm, assocFind_delete_self]

theorem completedPolls_nil (sid : String) : completedPolls sid [] = 0 := rfl

theorem completedPolls_cons (sid s : String) (b : Bool)
    (t : List (String × Bool)) :
    completedPolls sid ((s, b) :: t) =
      (if s = sid ∧ b = true then 1 else 0) + completedPolls sid t := by
  simp only [completedPolls, List.filter_cons]
  split <;> rename_i hc
  · simp only [List.length_cons]
    rw [if_pos (by simpa using hc)]
    omega
  · rw [if_neg (by simpa using hc)]
    omega

theorem runPolls_zero (sid : String) (sids : List String) :
    ∀ c : RespCache, assocFind c sid = none →
      completedPolls sid (runPolls c sids) = 0 := by
  induction sids with
  | nil => intro c _; rfl
  | cons s rest ih =>
    intro c h
    simp only [runPolls]
    rw [completedPolls_cons, ih _ (getResponse_preserves_none h)]
    by_cases hs : s = sid
    · subst hs
      rw [getResponse_pending h]
      simp [pendingReply]
    · simp [hs]

/-! ## Claim theorems -/

/-- C1: at-most-once delivery through GET /response/:streamId.  In any
sequence of poll requests, at most one poll for a given streamId observes
`complete:true`; polling never (re)creates a record, so once the id is
absent every poll for it observes `complete:false`.  Poll requests are the
only readers of the Correlation Cache, and each submission publishes under
a fresh `crypto.randomUUID()` id, so no record reappears for a consumed id. -/
theorem poll_at_most_once_complete (cache : RespCache) (sids : List String)
    (sid : String) :
    completedPolls sid (runPolls cache sids) ≤ 1 ∧
    (assocFind cache sid = none →
      completedPolls sid (runPolls cache sids) = 0) := by
  constructor
  · induction sids generalizing cache with
    | nil => simp [runPolls, completedPolls]
    | cons s rest ih =>
      simp only [runPolls]
      rw [completedPolls_cons]
      by_cases hs : s = sid
      · subst hs
        by_cases hc : (getResponseEndpoint cache s).1.complete = true
        · rw [runPolls_zero s rest _ (getResponse_complete_then_deleted hc)]
          simp [hc]
        · rw [if_neg (by simp [hc])]
          simpa using ih (getResponseEndpoint cache s).2
      · rw [if_neg (by simp [hs])]
        simpa using ih (getResponseEndpoint cache s).2
  · intro h
    exact runPolls_zero sid sids cache h

/-- Witness for C1: polling an empty cache twice for the same id yields no
`complete:true` observation. -/
theorem poll_at_most_once_complete_witness :
    assocFind ([] : RespCache) "s" = none ∧
      completedPolls "s" (runPolls [] ["s", "s"]) = 0 :=
  ⟨rfl, (poll_at_most_once_complete [] ["s", "s"] "s").2 rfl⟩

/-- C10: GET /response/:streamId never returns an error status: every reply
is HTTP 200 with `success:true`, and an unknown, still-pending, or
already-consumed id is answered with the very same `{complete:false}` body
(never a 404), leaving those cases indistinguishable. -/
theorem poll_endpoint_never_errors (cache : RespCache) (sid : String) :
    (getResponseEndpoint cache sid).1.status = 200 ∧
    (getResponseEndpoint cache sid).1.success = true ∧
    (assocFind cache sid = none →
      getResponseEndpoint cache sid = (pendingReply, cache)) := by
  refine ⟨?_, ?_, fun h => getResponse_pending h⟩ <;>
  · unfold getResponseEndpoint
    cases hf : assocFind cache sid with
    | none => rfl
    | some rec => by_cases hm : rec.multipartAudio <;> simp [hm]

/-- Witness for C10: an id absent from the cache gets the constant
`{success:true, complete:false}` reply with status 200. -/
theorem poll_endpoint_never_errors_witness :
    getResponseEndpoint ([] : RespCache) "x" = (pendingReply, []) :=
  (poll_endpoint_never_errors [] "x").2.2 rfl

/-- C6: voice resolution is total with defaults: `getVoiceName` always
returns one of the concrete table voices; a language outside the table
resolves exactly as the default locale en-US would; a voiceType other than
male/female falls back to the default gender's voice "Kimberly"
(the en-US female default, for every language). -/
theorem voice_resolution_total (language voiceType : String) :
    getVoiceName language voiceType ∈
      (["Kimberly", "Matthew", "Amy", "Brian", "Penelope", "Miguel",
        "Celine", "Mathieu", "Marlene", "Hans", "Carla", "Giorgio",
        "Mizuki", "Takumi", "Zhiyu"] : List String) ∧
    (voiceMap language = none →
      getVoiceName language voiceType = getVoiceName "en-US" voiceType) ∧
    (voiceType ≠ "male" → voiceType ≠ "female" →
      getVoiceName language voiceType = "Kimberly") := by
  refine ⟨?_, ?_, ?_⟩
  · unfold getVoiceName voiceMap voicePairAccess
    repeat' split
    all_goals simp
  · intro h
    have he : voiceMap "en-US" = some ⟨"Kimberly", "Matthew"⟩ := by decide
    simp only [getVoiceName, h, he, Option.getD_some, Option.getD_none]
  · intro h1 h2
    simp [getVoiceName, voicePairAccess, h1, h2]

/-- Witness for C6: an unsupported language and voiceType resolve to the
defaults without erroring. -/
theorem voice_resolution_total_witness :
    getVoiceName "xx-YY" "robot" = "Kimberly" ∧
      getVoiceName "xx-YY" "male" = getVoiceName "en-US" "male" :=
  ⟨(voice_resolution_total "xx-YY" "robot").2.2 (by decide) (by decide),
   (voice_resolution_total "xx-YY" "male").2.1 (by decide)⟩

/-- Counterexample to C5 as stated: the OpenAI provider (`Provider B`) is
invoked with the full, untrimmed text; a 1501-character input is not
truncated to 1500 characters before the OpenAI request is issued
(`openaiService.textToSpeech` passes `input: text` unchanged). -/
theorem openai_no_truncation_cex :
    1500 < longTtsText.length ∧
      openaiTtsRequestText longTtsText ≠ jsTakeTo longTtsText 1500 := by
  have hlen : longTtsText.length = 1501 := by
    simp only [longTtsText, strLength_mk, List.length_replicate]
  have hlen2 : (jsTakeTo longTtsText 1500).length = 1500 := by
    simp only [jsTakeTo, longTtsText, strLength_mk, List.length_take,
      List.length_replicate]
    omega
  constructor
  · omega
  · intro h
    have h2 := congrArg String.length h
    simp only [openaiTtsRequestText] at h2
    omega

/-- C5 amended: the Vonage provider (`Provider A`) truncates any input
longer than 1500 characters to its first 1500 characters before issuing the
request (and passes shorter text unchanged), while the OpenAI provider
(`Provider B`) is always invoked with the full untrimmed text. -/
theorem provider_trim_amended (text : String) :
    (1500 < text.length → vonageTtsRequestText text = jsTakeTo text 1500) ∧
    (text.length ≤ 1500 → vonageTtsRequestText text = text) ∧
    openaiTtsRequestText text = text := by
  refine ⟨fun h => ?_, fun h => ?_, rfl⟩
  · simp only [vonageTtsRequestText]
    rw [if_pos h]
  · simp only [vonageTtsRequestText]
    rw [if_neg (by omega)]

/-- Witness for C5 (amended): the 1501-character text is truncated by the
Vonage request builder and passed through by the OpenAI one. -/
theorem provider_trim_amended_witness :
    1500 < longTtsText.length ∧
      vonageTtsRequestText longTtsText = jsTakeTo longTtsText 1500 ∧
      openaiTtsRequestText longTtsText = longTtsText :=
  have hl : 1500 < longTtsText.length := by
    simp only [longTtsText, strLength_mk, List.length_replicate]
    omega
  ⟨hl, (provider_trim_amended longTtsText).1 hl,
   (provider_trim_amended longTtsText).2.2⟩

/-- C7: count-based eviction of the Audio Blob Cache: when more than 100
files are cached, cleanup keeps exactly the 50 most recent entries and
every filename among the evicted older entries becomes unreachable through
GET /audio/:filename, which answers 404. -/
theorem audio_cache_eviction (ac : AudioCache) (fname : String)
    (hnd : (ac.map Prod.fst).Nodup) (hlen : 100 < ac.length)
    (hmem : fname ∈ (ac.take (ac.length - 50)).map Prod.fst) :
    cleanupAudio ac = ac.drop (ac.length - 50) ∧
    (cleanupAudio ac).length = 50 ∧
    getAudioEndpoint (cleanupAudio ac) fname = AudioReply.notFound404 := by
  have hc : cleanupAudio ac = ac.drop (ac.length - 50) := by
    unfold cleanupAudio
    rw [if_pos hlen]
  refine ⟨hc, ?_, ?_⟩
  · rw [hc, List.length_drop]
    omega
  · rw [hc]
    have hsplit : ac.map Prod.fst =
        (ac.take (ac.length - 50)).map Prod.fst ++
          (ac.drop (ac.length - 50)).map Prod.fst := by
      rw [← List.map_append, List.take_append_drop]
    rw [hsplit, List.nodup_append] at hnd
    have hnot : fname ∉ (ac.drop (ac.length - 50)).map Prod.fst :=
      fun hin => hnd.2.2 hmem hin
    have hfind : assocFind (ac.drop (ac.length - 50)) fname = none := by
      unfold assocFind
      rw [Option.map_eq_none', List.find?_eq_none]
      intro x hx
      simp only [decide_eq_true_eq]
      intro he
      exact hnot (he ▸ List.mem_map_of_mem Prod.fst hx)
    unfold getAudioEndpoint
    rw [hfind]

/-- Witness for C7: in a 101-entry cache the oldest entry `f0` is evicted
by cleanup and then 404s. -/
theorem audio_cache_eviction_witness :
    100 < sampleAudioCache.length ∧
      getAudioEndpoint (cleanupAudio sampleAudioCache) "f0" =
        AudioReply.notFound404 :=
  ⟨by decide,
   (audio_cache_eviction sampleAudioCache "f0" (by decide) (by decide)
     (by decide)).2.2⟩

theorem assocFind_set_fresh {α : Type} {l : List (String × α)} {k : String}
    (v : α) (h : assocFind l k = none) : assocSet l k v = l ++ [(k, v)] := by
  unfold assocSet
  rw [if_neg]
  unfold assocFind at h
  rw [Option.map_eq_none', List.find?_eq_none] at h
  intro hc
  rw [List.any_eq_true] at hc
  obtain ⟨x, hx, hpx⟩ := hc
  exact h x hx hpx

theorem assocFind_append_of_none {α : Type} {l : List (String × α)}
    {k : String} (m : List (String × α)) (h : assocFind l k = none) :
    assocFind (l ++ m) k = assocFind m k := by
  unfold assocFind at h ⊢
  rw [List.find?_append]
  rw [Option.map_eq_none'] at h
  rw [h, Option.none_or]

/-- C8: submit-before-complete ordering.  The synchronous POST /chat
handler (through `res.json`) never writes the Correlation Cache and its
reply is exactly the immediate partial response; hence, the generated
streamId being fresh, any poll issued before the background continuation
runs observes `complete:false`, and the CompletionRecord becomes readable
only once `chatBackgroundRun` — which runs strictly after the submit reply
was sent — publishes it. -/
theorem submit_before_complete (env : ChatEnv) (st : ServerState) :
    (chatSubmit env st).2.responseCache = st.responseCache ∧
    (chatSubmit env st).1 = chatImmediate env ∧
    (assocFind st.responseCache env.streamId = none →
      (getResponseEndpoint (chatSubmit env st).2.responseCache
        env.streamId).1.complete = false) ∧
    (∀ rec calls now, chatBackground env = (some rec, calls) →
      ¬ 600000 < now - rec.timestamp →
      assocFind st.responseCache env.streamId = none →
      assocFind (chatBackgroundRun env now
        (chatSubmit env st).2).responseCache env.streamId = some rec) := by
  have hrc : (chatSubmit env st).2.responseCache = st.responseCache := by
    unfold chatSubmit
    cases h : initialAudioResult env <;> rfl
  have him : (chatSubmit env st).1 = chatImmediate env := by
    unfold chatSubmit
    cases h : initialAudioResult env <;> rfl
  refine ⟨hrc, him, fun h => ?_, fun rec calls now hbg hkeep hfresh => ?_⟩
  · rw [hrc, getResponse_pending h]
    rfl
  · unfold chatBackgroundRun
    rw [hbg]
    simp only [hrc]
    rw [assocFind_set_fresh rec hfresh]
    unfold cleanupResponses
    rw [List.filter_append,
      assocFind_append_of_none _ (assocFind_filter_none _ hfresh)]
    simp [assocFind, hkeep]
    omega

/-- Witness for C8: on an empty server state, the submit reply for a fresh
id leaves the Correlation Cache empty and an immediate poll reports
`complete:false`. -/
theorem submit_before_complete_witness :
    assocFind (⟨[], []⟩ : ServerState).responseCache submitEnv.streamId =
        none ∧
      (getResponseEndpoint (chatSubmit submitEnv
        (⟨[], []⟩ : ServerState)).2.responseCache
          submitEnv.streamId).1.complete = false :=
  ⟨rfl, (submit_before_complete submitEnv ⟨[], []⟩).2.2.1 rfl⟩

theorem assocFind_incrRetry (p : List (String × PendingEntry))
    (sid : String) :
    assocFind (incrRetry p sid) sid =
      (assocFind p sid).map (fun e => { e with retries := e.retries + 1 }) := by
  induction p with
  | nil => rfl
  | cons kv rest ih =>
    by_cases hk : kv.1 = sid
    · simp [incrRetry, assocFind, List.find?_cons, hk]
    · simp only [incrRetry, List.map_cons, if_neg hk]
      simp only [assocFind, List.find?_cons, decide_eq_false hk] at ih ⊢
      simpa [incrRetry] using ih

/-- C9: client poller abandonment.  When a poll for a pending id comes back
`complete:false`, the retry counter is incremented; once it exceeds the
budget of 30 the id is removed from the pending set, while the rendered
messages are untouched (the partial content stays) and no error is set. -/
theorem poller_abandonment (st : ClientState) (sid : String)
    (e : PendingEntry) (reply : PollReply)
    (hp : assocFind st.pending sid = some e)
    (hc : reply.complete = false) :
    (checkCompletedResponse st sid reply).messages = st.messages ∧
    (checkCompletedResponse st sid reply).error = st.error ∧
    (30 < e.retries + 1 →
      assocFind (checkCompletedResponse st sid reply).pending sid = none) ∧
    (¬ 30 < e.retries + 1 →
      assocFind (checkCompletedResponse st sid reply).pending sid =
        some { e with retries := e.retries + 1 }) := by
  unfold checkCompletedResponse
  rw [hp, hc]
  simp only [Bool.false_eq_true, if_false]
  by_cases hr : 30 < e.retries + 1
  · rw [if_pos hr]
    exact ⟨rfl, rfl, fun _ => assocFind_delete_self _ sid,
      fun h => absurd hr h⟩
  · rw [if_neg hr]
    refine ⟨rfl, rfl, fun h => absurd h hr, fun _ => ?_⟩
    rw [assocFind_incrRetry, hp]
    rfl

/-- Witness for C9: a pending response at 30 retries receiving one more
`complete:false` reply is silently dropped with messages and error intact. -/
theorem poller_abandonment_witness :
    assocFind clientStateW.pending "sid-1" = some ⟨0, 30⟩ ∧
      assocFind (checkCompletedResponse clientStateW "sid-1"
        pendingReply).pending "sid-1" = none :=
  ⟨by decide,
   (poller_abandonment clientStateW "sid-1" ⟨0, 30⟩ pendingReply (by decide)
     (by decide)).2.2.1 (by decide)⟩

theorem partial_long_of_initialAudio {env : ChatEnv} {p : String}
    (h : initialAudioPath env = some p) : 10 < env.partialText.length := by
  unfold initialAudioPath initialAudioResult at h
  by_cases hl : 10 < env.partialText.length
  · exact hl
  · rw [if_neg hl] at h
    simp at h

/-- C3: idempotent dedup heuristic.  Whenever an initial audio reference
exists and `finalText.length < partialText.length * 1.5` (over naturals:
`2·|finalText| < 3·|partialText|`), the background continuation publishes
a CompletionRecord whose audio reference is exactly the initial audio
reference and makes no completion-stage synthesis call. -/
theorem dedup_uses_initial_audio (env : ChatEnv) (p : String)
    (hip : initialAudioPath env = some p)
    (hlen : 2 * env.finalText.length < 3 * env.partialText.length) :
    (chatBackground env).1 =
      some { text := env.finalText, audioUrl := p, initialAudioUrl := none,
             multipartAudio := false, timestamp := env.ts2 } ∧
    (chatBackground env).2 = [] := by
  have h10 := partial_long_of_initialAudio hip
  have hpt : env.partialText ≠ "" := ne_empty_of_length_pos (by omega)
  unfold chatBackground backgroundStage
  rw [hip]
  have hd : dedupApplies env (some p) := ⟨rfl, hpt, hlen⟩
  rw [if_pos hd]
  exact ⟨rfl, rfl⟩

/-- Witness for C3: a reply only slightly longer than its partial chunk
reuses the initial audio and triggers no second synthesis. -/
theorem dedup_uses_initial_audio_witness :
    initialAudioPath dedupEnv = some "/api/audio/audio_initial_1.mp3" ∧
      (chatBackground dedupEnv).1 =
        some { text := dedupEnv.finalText,
               audioUrl := "/api/audio/audio_initial_1.mp3",
               initialAudioUrl := none, multipartAudio := false,
               timestamp := dedupEnv.ts2 } ∧
      (chatBackground dedupEnv).2 = [] :=
  have h := dedup_uses_initial_audio dedupEnv "/api/audio/audio_initial_1.mp3"
    (by decide) (by decide)
  ⟨by decide, h.1, h.2⟩

theorem backgroundCalls_audioText {env : ChatEnv} {ip : Option String}
    {t : String} (h : (backgroundStage env ip).2 = [t]) :
    t = audioTextOf env ip := by
  unfold backgroundStage at h
  by_cases hd : dedupApplies env ip
  · rw [if_pos hd] at h
    simp at h
  · rw [if_neg hd] at h
    simp only [] at h
    by_cases he : jsTrimEmpty (audioTextOf env ip) = true ∧ ip.isSome = true
    · rw [if_pos he] at h
      simp at h
    · rw [if_neg he] at h
      cases htts : tryBothTts env.vonageTts env.openaiTts
          (audioTextOf env ip) with
      | none =>
        rw [htts] at h
        simpa using h.symm
      | some a =>
        rw [htts] at h
        cases hip2 : ip with
        | none =>
          rw [hip2] at h
          simpa using h.symm
        | some q =>
          rw [hip2] at h
          simpa using h.symm

theorem audioTextOf_eq (env : ChatEnv) (ip : Option String) :
    audioTextOf env ip =
      if ip.isSome = true ∧ env.partialText ≠ "" ∧
          jsStartsWith env.finalText env.partialText = true then
        jsSubstrFrom env.finalText env.partialText.length
      else env.finalText := by
  unfold audioTextOf
  by_cases hc : ip.isSome = true ∧ env.partialText ≠ "" ∧
      jsStartsWith env.finalText env.partialText = true
  · rw [if_pos hc,
      if_pos ⟨hc.1, hc.2.1, length_pos_of_ne_empty hc.2.1, hc.2.2⟩]
  · rw [if_neg hc, if_neg (fun hc2 => hc ⟨hc2.1, hc2.2.1, hc2.2.2.2⟩)]

/-- Counterexample to C4 as stated: a submission with no initial audio
(`"Hi!"` is under the 10-character threshold, so no initial synthesis is
attempted) whose final text starts with the partial text: the prefix is
NOT stripped — the full `finalText` is handed to completion synthesis,
because api.js strips the prefix only when `initialAudioPath` is set. -/
theorem remainder_without_initial_audio_cex :
    jsStartsWith noInitialEnv.finalText noInitialEnv.partialText = true ∧
      (chatBackground noInitialEnv).2 = [noInitialEnv.finalText] ∧
      noInitialEnv.finalText ≠
        jsSubstrFrom noInitialEnv.finalText
          noInitialEnv.partialText.length :=
  ⟨by decide, by decide, by decide⟩

/-- C4 amended: the completion-stage synthesis text is
`finalText.substring(partialText.length)` exactly when an initial audio
reference exists, `partialText` is non-empty and `finalText` starts with
`partialText`; in every other case (including the no-initial-audio case)
the full `finalText` is synthesized. -/
theorem remainder_synthesis_amended (env : ChatEnv) (t : String)
    (h : (chatBackground env).2 = [t]) :
    if (initialAudioPath env).isSome = true ∧ env.partialText ≠ "" ∧
        jsStartsWith env.finalText env.partialText = true then
      t = jsSubstrFrom env.finalText env.partialText.length
    else t = env.finalText := by
  have ht := @backgroundCalls_audioText env (initialAudioPath env) t h
  rw [audioTextOf_eq] at ht
  by_cases hc : (initialAudioPath env).isSome = true ∧
      env.partialText ≠ "" ∧
      jsStartsWith env.finalText env.partialText = true
  · rw [if_pos hc] at ht ⊢
    exact ht
  · rw [if_neg hc] at ht ⊢
    exact ht

/-- Witness for C4 (amended): with initial audio present and a prefixed
final text, exactly the suffix after the partial text is synthesized. -/
theorem remainder_synthesis_amended_witness :
    (chatBackground stripEnv).2 = [" Plus more text here, okay friend."] ∧
      (if (initialAudioPath stripEnv).isSome = true ∧
          stripEnv.partialText ≠ "" ∧
          jsStartsWith stripEnv.finalText stripEnv.partialText = true then
        " Plus more text here, okay friend." =
          jsSubstrFrom stripEnv.finalText stripEnv.partialText.length
      else " Plus more text here, okay friend." = stripEnv.finalText) :=
  ⟨by decide, remainder_synthesis_amended stripEnv _ (by decide)⟩

/-- Counterexample to C2 as stated: a submission on which both providers
fail at every stage.  The immediate response does carry the partial text
with a null audio reference, but the background continuation publishes NO
CompletionRecord at all (the double synthesis failure propagates to the
final `.catch`, which only logs), so the final text is never delivered to
the polling client — contradicting the claim that a record carrying
`finalText` with a null audio reference is still published. -/
theorem tts_failure_no_record_cex :
    (chatImmediate ttsFailEnv).text = ttsFailEnv.partialText ∧
      (chatImmediate ttsFailEnv).audioUrl = none ∧
      (chatBackground ttsFailEnv).1 = none :=
  ⟨rfl, by decide, by decide⟩

/-- C2 amended: speech-synthesis failure is non-fatal for the immediate
stage only: when both providers fail everywhere, the submit response still
carries the partial text with a null audio reference, but the background
continuation publishes no CompletionRecord (the claim's final-text
delivery through polling does not happen; no record with a null audio
reference exists). -/
theorem tts_failure_nonfatal_amended (pt ft sid : String) (ts1 ts2 : Nat) :
    (chatImmediate (failingTtsEnv pt ft sid ts1 ts2)).text = pt ∧
    (chatImmediate (failingTtsEnv pt ft sid ts1 ts2)).audioUrl = none ∧
    (chatBackground (failingTtsEnv pt ft sid ts1 ts2)).1 = none := by
  have hia : initialAudioResult (failingTtsEnv pt ft sid ts1 ts2) = none := by
    unfold initialAudioResult failingTtsEnv tryBothTts
    split <;> rfl
  have hip : initialAudioPath (failingTtsEnv pt ft sid ts1 ts2) = none := by
    unfold initialAudioPath
    rw [hia]
    rfl
  refine ⟨rfl, ?_, ?_⟩
  · simp [chatImmediate, hip]
  · simp only [chatBackground, backgroundStage, hip]
    rw [if_neg (by simp [dedupApplies])]
    rw [if_neg (by simp)]
    rfl

end VonageMvp
